import Mathlib

/-!
Shallow embedding of the k8soperator repository: the pod-healer control loop
(`src/main.go`) and the NginxDeployment reconciler
(`src/unnamed/part_000`, package `controller`, plus the API types in
`src/nginx-operator/api/v1/nginxdeployment_types.go`).

Conventions of the embedding:
* Go `int32` fields (replica counts, ports, restart counts) become `Int`;
  no arithmetic beyond comparison and decimal formatting is performed on
  them, so overflow is irrelevant.
* Go `time.Time` / `time.Duration` become `Int` nanoseconds; `time.Since(t)`
  becomes `now - t`.
* Go maps (`Annotations`) become association lists with first-match lookup;
  a `nil` map is the empty list.
* Every interaction with the remote store (kube-apiserver) is made explicit:
  read results (`Get`, `Delete` outcomes) are parameters supplied by the
  environment, and write requests are recorded in a returned trace of calls.
-/

set_option autoImplicit false

namespace K8sOp

/-- Pod phase, `corev1.PodPhase` (`src/main.go` checks Pending and Running). -/
inductive PodPhase where
  | Pending
  | Running
  | Succeeded
  | Failed
  | Unknown
deriving DecidableEq, Repr

/-- Condition status, `corev1.ConditionStatus`. -/
inductive ConditionStatus where
  | ConditionTrue
  | ConditionFalse
  | ConditionUnknown
deriving DecidableEq, Repr

/-- Container status: name, restart count and, when the container is in a
`Waiting` state, its reason (`containerStatus.State.Waiting.Reason`); `none`
models `State.Waiting == nil`. -/
structure ContainerStatus where
  name : String
  restartCount : Int
  waitingReason : Option String
deriving DecidableEq, Repr

/-- Pod condition: `{Type, Status, LastTransitionTime}`. -/
structure PodCondition where
  type : String
  status : ConditionStatus
  lastTransitionTime : Int
deriving DecidableEq, Repr

/-- The watched `corev1.Pod`, restricted to the fields `src/main.go` reads. -/
structure Pod where
  ns : String
  name : String
  creationTimestamp : Int
  phase : PodPhase
  containerStatuses : List ContainerStatus
  conditions : List PodCondition
  annotations : List (String × String)
deriving DecidableEq, Repr

/-- Map lookup on the annotations of the pod (Go map: keys unique, `nil` = []). -/
def lookupAnnot (pod : Pod) (key : String) : Option String :=
  pod.annotations.lookup key

/-- Annotation key `healing.kubernetes.io/action` used in `healPod`. -/
def actionKey : String := "healing.kubernetes.io/action"

/-- Annotation key `healing.kubernetes.io/ignore` used in `handlePod`. -/
def ignoreKey : String := "healing.kubernetes.io/ignore"

/-- One nanosecond-count minute, Go `time.Minute`. -/
def minuteNs : Int := 60 * 1000000000

/-- Pending threshold: `15*time.Minute` in `isPodStuck`. -/
def pendingThreshold : Int := 15 * minuteNs

/-- Not-ready threshold: `10*time.Minute` in `isPodStuck`. -/
def notReadyThreshold : Int := 10 * minuteNs

/-- Restart-count threshold: the literal `10` in `isPodStuck`. -/
def restartThreshold : Int := 10

/-- First block of `isPodStuck`: Pending longer than 15 minutes
(`pod.Status.Phase == corev1.PodPending && time.Since(pod.CreationTimestamp.Time) > 15*time.Minute`). -/
def stuckPendingCheck (pod : Pod) (now : Int) : Bool :=
  pod.phase == PodPhase.Pending &&
    decide (now - pod.creationTimestamp > pendingThreshold)

/-- Second block of `isPodStuck`: Running with some container either restarted
more than 10 times or waiting with reason `CrashLoopBackOff`. The Go loop
returns `true` at the first container satisfying either test, which is
`List.any` of the disjunction. -/
def stuckCrashLoopCheck (pod : Pod) : Bool :=
  pod.phase == PodPhase.Running &&
    pod.containerStatuses.any (fun cs =>
      decide (cs.restartCount > restartThreshold) ||
        cs.waitingReason == some ("CrashLoopBackOff"))

/-- Function `isPodReady` from `src/main.go`: some condition has
`Type == corev1.PodReady && Status == corev1.ConditionTrue`. -/
def isPodReady (pod : Pod) : Bool :=
  pod.conditions.any (fun c =>
    c.type == "Ready" && c.status == ConditionStatus.ConditionTrue)

/-- Third block of `isPodStuck`: not ready, and some `Ready=False` condition
transitioned more than 10 minutes ago. -/
def stuckNotReadyCheck (pod : Pod) (now : Int) : Bool :=
  !isPodReady pod &&
    pod.conditions.any (fun c =>
      c.type == "Ready" && c.status == ConditionStatus.ConditionFalse &&
        decide (now - c.lastTransitionTime > notReadyThreshold))

/-- Function `isPodStuck` from `src/main.go`: the three blocks in order, first `return
true` wins, final `return false`. -/
def isPodStuck (pod : Pod) (now : Int) : Bool :=
  stuckPendingCheck pod now || stuckCrashLoopCheck pod ||
    stuckNotReadyCheck pod now

/-- Health verdict (spec §3). In the code `isPodStuck` returns only a Bool;
`classify` refines it by naming which sequential block of `isPodStuck` fired
first (each block corresponds to one stuck verdict, per its log message). -/
inductive Verdict where
  | Healthy
  | StuckPending
  | StuckCrashLoop
  | StuckNotReady
deriving DecidableEq, Repr

/-- Verdict-valued reading of `isPodStuck`: the first block to fire names the
verdict; no block firing is Healthy. -/
def classify (pod : Pod) (now : Int) : Verdict :=
  if stuckPendingCheck pod now then Verdict.StuckPending
  else if stuckCrashLoopCheck pod then Verdict.StuckCrashLoop
  else if stuckNotReadyCheck pod now then Verdict.StuckNotReady
  else Verdict.Healthy

/-- Outcome of the `Delete` call against the remote store, as seen by
`healPod`: Go `err == nil`, `errors.IsNotFound(err)`, or any other error. -/
inductive DeleteResult where
  | Ok
  | NotFound
  | OtherError (msg : String)
deriving DecidableEq, Repr

/-- Observable events of the healer loop: the classification of a pod
(`isPodStuck` evaluated inside `handlePod`), the log lines of the `healPod`
annotation switch, and the delete request issued to the remote store. -/
inductive HealerEvent where
  | Evaluate
  | LogCustomRestart
  | LogCustomDelete
  | LogSkip
  | DeletePod (ns name : String)
deriving DecidableEq, Repr

/-- Code after the annotation switch of `healPod`: issue the delete against the
remote store and return its error unchanged (`if err != nil { return err }`).
`logs` are the events emitted before the delete. -/
def doDeletePod (pod : Pod) (r : DeleteResult) (logs : List HealerEvent) :
    List HealerEvent × Option DeleteResult :=
  (logs ++ [HealerEvent.DeletePod pod.ns pod.name],
    match r with
    | DeleteResult.Ok => none
    | e => some e)

/-- Function `healPod` from `src/main.go`: switch on the
`healing.kubernetes.io/action` annotation — `restart` and `delete` only log
and fall through to the delete, `ignore` returns `nil` without deleting, any
other value (or no annotation) falls through to the delete. The second
component is the returned error (`none` = `nil`). -/
def healPod (pod : Pod) (r : DeleteResult) :
    List HealerEvent × Option DeleteResult :=
  match lookupAnnot pod actionKey with
  | some ("restart") => doDeletePod pod r [HealerEvent.LogCustomRestart]
  | some ("delete") => doDeletePod pod r [HealerEvent.LogCustomDelete]
  | some ("ignore") => ([HealerEvent.LogSkip], none)
  | _ => doDeletePod pod r []

/-- Function `handlePod` from `src/main.go`: skip `kube-system` pods, skip pods with
the ignore annotation, otherwise evaluate `isPodStuck` and heal if stuck.
The returned trace records the evaluation and every event of `healPod`
(the healing error is only logged there, not propagated). -/
def handlePod (pod : Pod) (now : Int) (r : DeleteResult) : List HealerEvent :=
  if pod.ns == "kube-system" then []
  else if (lookupAnnot pod ignoreKey).isSome then []
  else
    HealerEvent.Evaluate ::
      (if isPodStuck pod now then (healPod pod r).1 else [])

/-! Reconciler embedding (`src/unnamed/part_000`, package `controller`). -/

/-- Type `NginxDeploymentSpec` from the API types: `Replicas`, `Port`, `Image`. -/
structure NginxDeploymentSpec where
  replicas : Int
  port : Int
  image : String
deriving DecidableEq, Repr

/-- Type `NginxDeploymentStatus`: `AvailableReplicas`, `Status`. -/
structure NginxDeploymentStatus where
  availableReplicas : Int
  status : String
deriving DecidableEq, Repr

/-- The parent `NginxDeployment` resource. -/
structure NginxDeployment where
  ns : String
  name : String
  spec : NginxDeploymentSpec
  status : NginxDeploymentStatus
deriving DecidableEq, Repr

/-- HTTP-GET probe as built in `reconcileDeployment` (path, port,
`InitialDelaySeconds`, `TimeoutSeconds`). -/
structure Probe where
  path : String
  port : Int
  initialDelaySeconds : Int
  timeoutSeconds : Int
deriving DecidableEq, Repr

/-- Container of the workload pod template: the fields `reconcileDeployment`
sets (`Name`, `Image`, one `ContainerPort`, both probes). -/
structure Container where
  name : String
  image : String
  containerPort : Int
  livenessProbe : Option Probe
  readinessProbe : Option Probe
deriving DecidableEq, Repr

/-- Type `appsv1.DeploymentSpec` restricted to the fields the controller sets or
reads: `Replicas`, selector match-labels, template labels, containers. -/
structure DeploymentSpec where
  replicas : Int
  selectorMatchLabels : List (String × String)
  templateLabels : List (String × String)
  containers : List Container
deriving DecidableEq, Repr

/-- Type `appsv1.DeploymentStatus` restricted to `AvailableReplicas`, the only
field `updateStatus` reads. -/
structure DeploymentStatus where
  availableReplicas : Int
deriving DecidableEq, Repr

/-- The workload child. `ownerRef` records `ctrl.SetControllerReference`:
the name of the owning parent. -/
structure Deployment where
  ns : String
  name : String
  ownerRef : Option String
  spec : DeploymentSpec
  status : DeploymentStatus
deriving DecidableEq, Repr

/-- Type `corev1.ServicePort` restricted to `Port` and `TargetPort`. -/
structure ServicePort where
  port : Int
  targetPort : Int
deriving DecidableEq, Repr

/-- Type `corev1.ServiceSpec` restricted to the fields `reconcileService` sets. -/
structure ServiceSpec where
  selector : List (String × String)
  ports : List ServicePort
  type : String
deriving DecidableEq, Repr

/-- The network-endpoint child. -/
structure Service where
  ns : String
  name : String
  ownerRef : Option String
  spec : ServiceSpec
deriving DecidableEq, Repr

/-- Result of a `Get` against the remote store: Go `err == nil` with the
object, `errors.IsNotFound(err)`, or some other error. -/
inductive GetResult (α : Type) where
  | found (a : α)
  | notFound
  | error (msg : String)
deriving DecidableEq, Repr

/-- Mutating calls the reconciler can issue against the remote store. -/
inductive ReconcileCall where
  | CreateDeployment (d : Deployment)
  | UpdateDeployment (d : Deployment)
  | CreateService (s : Service)
  | UpdateStatus (nd : NginxDeployment)
deriving DecidableEq, Repr

/-- The desired workload child built at the top of `reconcileDeployment`
from the parent, with the controller reference already set (the code sets it
immediately after construction, before any store interaction). -/
def desiredDeployment (nd : NginxDeployment) : Deployment :=
  { ns := nd.ns
    name := nd.name ++ "-deployment"
    ownerRef := some nd.name
    spec :=
      { replicas := nd.spec.replicas
        selectorMatchLabels := [("app", nd.name)]
        templateLabels := [("app", nd.name)]
        containers :=
          [{ name := "nginx"
             image := nd.spec.image
             containerPort := nd.spec.port
             livenessProbe := some ⟨"/", nd.spec.port, 15, 5⟩
             readinessProbe := some ⟨"/", nd.spec.port, 5, 5⟩ }] }
    status := ⟨0⟩ }

/-- The desired network-endpoint child built in `reconcileService`
(`Port`, `TargetPort` both from `Spec.Port`, selector `app=<name>`,
`Type: ClusterIP`), controller reference set. -/
def desiredService (nd : NginxDeployment) : Service :=
  { ns := nd.ns
    name := nd.name ++ "-service"
    ownerRef := some nd.name
    spec :=
      { selector := [("app", nd.name)]
        ports := [⟨nd.spec.port, nd.spec.port⟩]
        type := "ClusterIP" } }

/-- Image of the first container, the Go expression
`Spec.Template.Spec.Containers[0].Image`. The Go expression panics when the
container list is empty; here it is `none`, and theorems that depend on it
hypothesise a first container. -/
def containersImage0 (s : DeploymentSpec) : Option String :=
  s.containers.head?.map Container.image

/-- Function `reconcileDeployment`: on `IsNotFound`, create the desired deployment;
on another `Get` error, return it; otherwise compare `Replicas` and the
`Image` of the first container of the found deployment against the desired one,
and on mismatch replace the found spec wholesale (`foundDeploy.Spec =
deployment.Spec`) and issue one `Update`; on match, do nothing. -/
def reconcileDeployment (nd : NginxDeployment) (found : GetResult Deployment) :
    List ReconcileCall × Option String :=
  let deployment := desiredDeployment nd
  match found with
  | GetResult.notFound => ([ReconcileCall.CreateDeployment deployment], none)
  | GetResult.error e => ([], some e)
  | GetResult.found foundDeploy =>
    if foundDeploy.spec.replicas ≠ deployment.spec.replicas ∨
        containersImage0 foundDeploy.spec ≠ containersImage0 deployment.spec then
      ([ReconcileCall.UpdateDeployment { foundDeploy with spec := deployment.spec }], none)
    else
      ([], none)

/-- Function `reconcileService`: on `IsNotFound`, create the desired service; on
another `Get` error, return it; when the service is found, return `nil`
without comparing or updating anything. -/
def reconcileService (nd : NginxDeployment) (found : GetResult Service) :
    List ReconcileCall × Option String :=
  let service := desiredService nd
  match found with
  | GetResult.notFound => ([ReconcileCall.CreateService service], none)
  | GetResult.error e => ([], some e)
  | GetResult.found _ => ([], none)

/-- Function `updateStatus`: `Get` the workload child by its deterministic name; on
any error (not-found included) return it without writing; otherwise copy its
`AvailableReplicas` into the parent status, derive the status string
(`"Ready"` on equality with `Spec.Replicas`, else `"Available: X/Y"`), and
issue one status-subresource update. Returns the updated parent. -/
def updateStatus (nd : NginxDeployment) (found : GetResult Deployment) :
    List ReconcileCall × Except String NginxDeployment :=
  match found with
  | GetResult.notFound => ([], Except.error ("deployment not found"))
  | GetResult.error e => ([], Except.error e)
  | GetResult.found deployment =>
    let avail := deployment.status.availableReplicas
    let st :=
      if avail = nd.spec.replicas then ("Ready")
      else (("Available: ") ++ toString avail ++ "/" ++ toString nd.spec.replicas)
    let upd : NginxDeployment :=
      { nd with status := { availableReplicas := avail, status := st } }
    ([ReconcileCall.UpdateStatus upd], Except.ok upd)

/-- Default-filling at the top of `Reconcile`: empty `Image` becomes
`"nginx:latest"`, zero `Port` becomes 80. -/
def setDefaults (nd : NginxDeployment) : NginxDeployment :=
  let nd1 :=
    if nd.spec.image = "" then
      { nd with spec := { nd.spec with image := "nginx:latest" } }
    else nd
  if nd1.spec.port = 0 then
    { nd1 with spec := { nd1.spec with port := 80 } }
  else nd1

/-- Function `Reconcile`: fetch the parent (`IsNotFound` ends the reconcile without
error), fill defaults, then run `reconcileDeployment`, `reconcileService`
and `updateStatus` in sequence, stopping at the first error. Each `Get`
result is supplied by the environment (`getParent`, the deployment lookup in
`reconcileDeployment`, the service lookup, and the second deployment lookup
in `updateStatus`); the trace collects every mutating call issued. -/
def Reconcile (getParent : GetResult NginxDeployment)
    (getDeploy1 : GetResult Deployment) (getSvc : GetResult Service)
    (getDeploy2 : GetResult Deployment) : List ReconcileCall × Option String :=
  match getParent with
  | GetResult.notFound => ([], none)
  | GetResult.error e => ([], some e)
  | GetResult.found nd0 =>
    let nd := setDefaults nd0
    let r1 := reconcileDeployment nd getDeploy1
    match r1.2 with
    | some e => (r1.1, some e)
    | none =>
      let r2 := reconcileService nd getSvc
      match r2.2 with
      | some e => (r1.1 ++ r2.1, some e)
      | none =>
        let r3 := updateStatus nd getDeploy2
        match r3.2 with
        | Except.error e => (r1.1 ++ r2.1 ++ r3.1, some e)
        | Except.ok _ => (r1.1 ++ r2.1 ++ r3.1, none)

/-! Concrete inputs used by counterexamples and witnesses. -/

/-- A plain stuck pod: default namespace, no annotations. -/
def plainPod : Pod :=
  { ns := "default"
    name := "web-1"
    creationTimestamp := 0
    phase := PodPhase.Running
    containerStatuses := [⟨"app", 11, none⟩]
    conditions := []
    annotations := [] }

/-- A pod in the reserved system namespace. -/
def systemPod : Pod :=
  { plainPod with ns := "kube-system", name := "coredns-1" }

/-- A pod carrying the ignore annotation. -/
def ignoredPod : Pod :=
  { plainPod with annotations := [("healing.kubernetes.io/ignore", "true")] }

/-- A pod carrying `action=ignore`. -/
def actionIgnorePod : Pod :=
  { plainPod with annotations := [("healing.kubernetes.io/action", "ignore")] }

/-- A pod carrying `action=restart`. -/
def actionRestartPod : Pod :=
  { plainPod with annotations := [("healing.kubernetes.io/action", "restart")] }

/-- A pod carrying `action=delete`. -/
def actionDeletePod : Pod :=
  { plainPod with annotations := [("healing.kubernetes.io/action", "delete")] }

/-- A pod carrying an unrecognised `action=pause`. -/
def actionPausePod : Pod :=
  { plainPod with annotations := [("healing.kubernetes.io/action", "pause")] }

/-! Claim theorems for the healer. -/

/-- C1, counterexample: `healPod` in `src/main.go` has no `IsNotFound`
check — deleting an already-absent pod returns the not-found error to the
caller, not success, refuting the claim at this concrete pod. -/
theorem healPod_notFound_reports_error_cex :
    (healPod plainPod DeleteResult.NotFound).1 =
      [HealerEvent.DeletePod ("default") ("web-1")] ∧
    (healPod plainPod DeleteResult.NotFound).2 = some DeleteResult.NotFound ∧
    (healPod plainPod DeleteResult.NotFound).2 ≠ none := by
  decide

/-- C1, amended: for every pod that does not take the `action=ignore` early
return, `healPod` issues the delete and propagates its outcome unchanged —
every non-nil delete error, not-found included, is reported as a failure;
no error class is treated as success. -/
theorem healPod_propagates_every_delete_error (pod : Pod) (r : DeleteResult)
    (h : lookupAnnot pod actionKey ≠ some ("ignore")) :
    (healPod pod r).2 = (if r = DeleteResult.Ok then none else some r) := by
  unfold healPod
  split
  · cases r <;> simp [doDeletePod]
  · cases r <;> simp [doDeletePod]
  · simp_all
  · cases r <;> simp [doDeletePod]

/-- Witness for the amended C1 theorem at a concrete pod and a not-found
delete outcome. -/
theorem healPod_propagates_every_delete_error_witness :
    (healPod plainPod DeleteResult.NotFound).2 =
      (if DeleteResult.NotFound = DeleteResult.Ok then none
       else some DeleteResult.NotFound) :=
  healPod_propagates_every_delete_error plainPod DeleteResult.NotFound (by decide)

/-- C5: a pod in the reserved `kube-system` namespace, or carrying the
`healing.kubernetes.io/ignore` annotation key (any value), produces an empty
healer trace: `isPodStuck` is never evaluated and no delete call is issued,
for any verdict and any delete outcome. -/
theorem handlePod_prefilters_short_circuit (pod : Pod) (now : Int)
    (r : DeleteResult)
    (h : pod.ns = "kube-system" ∨ (lookupAnnot pod ignoreKey).isSome = true) :
    handlePod pod now r = [] := by
  unfold handlePod
  rcases h with h | h
  · simp [h]
  · split
    · rfl
    · simp [h]

/-- Witness for C5: the system-namespace pod and the annotated pod both
yield an empty trace. -/
theorem handlePod_prefilters_short_circuit_witness :
    handlePod systemPod 0 DeleteResult.Ok = [] ∧
    handlePod ignoredPod 0 DeleteResult.Ok = [] :=
  ⟨handlePod_prefilters_short_circuit systemPod 0 DeleteResult.Ok (by decide),
   handlePod_prefilters_short_circuit ignoredPod 0 DeleteResult.Ok (by decide)⟩

/-- C6: under the `healing.kubernetes.io/action` annotation, value `ignore`
makes `healPod` skip with no delete call and a `nil` return, while values
`restart` and `delete` log their custom-path marker and still issue the one
delete call. -/
theorem healPod_action_override (pod : Pod) (r : DeleteResult) :
    (lookupAnnot pod actionKey = some ("ignore") →
      healPod pod r = ([HealerEvent.LogSkip], none)) ∧
    (lookupAnnot pod actionKey = some ("restart") →
      (healPod pod r).1 =
        [HealerEvent.LogCustomRestart, HealerEvent.DeletePod pod.ns pod.name]) ∧
    (lookupAnnot pod actionKey = some ("delete") →
      (healPod pod r).1 =
        [HealerEvent.LogCustomDelete, HealerEvent.DeletePod pod.ns pod.name]) := by
  refine ⟨fun h => ?_, fun h => ?_, fun h => ?_⟩ <;>
    simp [healPod, h, doDeletePod]

/-- Witness for C6 at concrete annotated pods. -/
theorem healPod_action_override_witness :
    healPod actionIgnorePod DeleteResult.Ok = ([HealerEvent.LogSkip], none) ∧
    (healPod actionRestartPod DeleteResult.Ok).1 =
      [HealerEvent.LogCustomRestart, HealerEvent.DeletePod ("default") ("web-1")] ∧
    (healPod actionDeletePod DeleteResult.Ok).1 =
      [HealerEvent.LogCustomDelete, HealerEvent.DeletePod ("default") ("web-1")] :=
  ⟨(healPod_action_override actionIgnorePod DeleteResult.Ok).1 rfl,
   (healPod_action_override actionRestartPod DeleteResult.Ok).2.1 rfl,
   (healPod_action_override actionDeletePod DeleteResult.Ok).2.2 rfl⟩

/-- C10: an action annotation whose value is outside
`{restart, delete, ignore}` falls through the switch (which has no default
case): `healPod` behaves exactly as with no annotation at all and issues the
delete call. -/
theorem healPod_unknown_action_falls_through (pod : Pod) (r : DeleteResult)
    (v : String) (h1 : lookupAnnot pod actionKey = some v)
    (h2 : v ≠ "restart") (h3 : v ≠ "delete") (h4 : v ≠ "ignore") :
    healPod pod r = healPod { pod with annotations := [] } r ∧
    (healPod pod r).1 = [HealerEvent.DeletePod pod.ns pod.name] := by
  unfold healPod
  rw [h1]
  split
  · simp_all
  · simp_all
  · simp_all
  · refine ⟨?_, by simp [doDeletePod]⟩
    simp [lookupAnnot, doDeletePod]

/-- Witness for C10 at the `action=pause` pod. -/
theorem healPod_unknown_action_falls_through_witness :
    healPod actionPausePod DeleteResult.Ok =
      healPod { actionPausePod with annotations := [] } DeleteResult.Ok ∧
    (healPod actionPausePod DeleteResult.Ok).1 =
      [HealerEvent.DeletePod ("default") ("web-1")] :=
  healPod_unknown_action_falls_through actionPausePod DeleteResult.Ok ("pause")
    rfl (by decide) (by decide) (by decide)

/-! Claim theorems for the classifier. -/

/-- Reference time for the C3 counterexample. -/
def c3now : Int := 1000 * minuteNs

/-- A Pending pod aged 12 minutes whose `Ready=False` condition has been
held for 11 minutes. -/
def youngPendingPod : Pod :=
  { ns := "default"
    name := "web-2"
    creationTimestamp := 988 * minuteNs
    phase := PodPhase.Pending
    containerStatuses := []
    conditions := [⟨"Ready", ConditionStatus.ConditionFalse, 989 * minuteNs⟩]
    annotations := [] }

/-- C3, counterexample: `isPodStuck` does not stop at the Pending block — a
Pending pod with age at most 15 minutes still falls through to the not-ready
block, so this 12-minute-old Pending pod with an 11-minute-old `Ready=False`
condition is classified stuck (not Healthy), refuting the second part of the claim, namely its
half. -/
theorem classify_pending_young_not_healthy_cex :
    youngPendingPod.phase = PodPhase.Pending ∧
    c3now - youngPendingPod.creationTimestamp ≤ pendingThreshold ∧
    classify youngPendingPod c3now = Verdict.StuckNotReady ∧
    classify youngPendingPod c3now ≠ Verdict.Healthy := by
  decide

/-- C3, amended: for a Pending pod, `classify` returns StuckPending exactly
when its age strictly exceeds the pending threshold; a Pending pod at or
under the threshold is Healthy exactly when the not-ready rule (`Ready=False`
condition held longer than the not-ready threshold) does not fire. -/
theorem classify_pending_rule (pod : Pod) (now : Int)
    (hp : pod.phase = PodPhase.Pending) :
    (classify pod now = Verdict.StuckPending ↔
      now - pod.creationTimestamp > pendingThreshold) ∧
    (now - pod.creationTimestamp ≤ pendingThreshold →
      (classify pod now = Verdict.Healthy ↔
        stuckNotReadyCheck pod now = false)) := by
  have hb1 : (PodPhase.Pending == PodPhase.Running) = false := rfl
  have hb2 : (PodPhase.Pending == PodPhase.Pending) = true := rfl
  have hcrash : stuckCrashLoopCheck pod = false := by
    unfold stuckCrashLoopCheck
    rw [hp, hb1]
    simp
  have hpend : stuckPendingCheck pod now =
      decide (now - pod.creationTimestamp > pendingThreshold) := by
    unfold stuckPendingCheck
    rw [hp, hb2]
    simp
  by_cases h : now - pod.creationTimestamp > pendingThreshold
  · have hclass : classify pod now = Verdict.StuckPending := by
      unfold classify
      rw [hpend]
      simp [h]
    exact ⟨by simp [hclass, h], fun hle => absurd h (by omega)⟩
  · have hclass : classify pod now =
        (if stuckNotReadyCheck pod now then Verdict.StuckNotReady
         else Verdict.Healthy) := by
      unfold classify
      rw [hpend, hcrash]
      simp [h]
    rw [hclass]
    constructor
    · cases hnr : stuckNotReadyCheck pod now <;> simp [h]
    · intro hle
      cases hnr : stuckNotReadyCheck pod now <;> simp

/-- Witness for the amended C3 theorem: a Pending pod aged 20 minutes with
no conditions is StuckPending; its age exceeds the threshold. -/
theorem classify_pending_rule_witness :
    (classify { youngPendingPod with creationTimestamp := 980 * minuteNs, conditions := [] } c3now =
        Verdict.StuckPending ↔
      c3now - (980 * minuteNs : Int) > pendingThreshold) ∧
    (c3now - (980 * minuteNs : Int) ≤ pendingThreshold →
      (classify { youngPendingPod with creationTimestamp := 980 * minuteNs, conditions := [] } c3now =
          Verdict.Healthy ↔
        stuckNotReadyCheck { youngPendingPod with creationTimestamp := 980 * minuteNs, conditions := [] } c3now =
          false)) :=
  classify_pending_rule
    { youngPendingPod with creationTimestamp := 980 * minuteNs, conditions := [] }
    c3now rfl

/-- C8: a pod with no condition of type `Ready` at all is never classified
StuckNotReady, and whenever `classify` returns StuckNotReady some
`Ready=False` condition has been held strictly longer than the not-ready
threshold. -/
theorem classify_noReady_never_stuckNotReady (pod : Pod) (now : Int) :
    ((∀ c ∈ pod.conditions, c.type ≠ "Ready") →
      classify pod now ≠ Verdict.StuckNotReady) ∧
    (classify pod now = Verdict.StuckNotReady →
      ∃ c ∈ pod.conditions, c.type = "Ready" ∧
        c.status = ConditionStatus.ConditionFalse ∧
        now - c.lastTransitionTime > notReadyThreshold) := by
  have key : classify pod now = Verdict.StuckNotReady →
      ∃ c ∈ pod.conditions, c.type = "Ready" ∧
        c.status = ConditionStatus.ConditionFalse ∧
        now - c.lastTransitionTime > notReadyThreshold := by
    intro h
    unfold classify at h
    split at h
    · exact absurd h (by simp)
    · split at h
      · exact absurd h (by simp)
      · split at h
        · rename_i hnr
          simp only [stuckNotReadyCheck, Bool.and_eq_true, List.any_eq_true,
            beq_iff_eq, decide_eq_true_eq] at hnr
          obtain ⟨-, c, hc, ⟨ht, hs⟩, hd⟩ := hnr
          exact ⟨c, hc, ht, hs, hd⟩
        · exact absurd h (by simp)
  refine ⟨fun hnone h => ?_, key⟩
  obtain ⟨c, hc, ht, -, -⟩ := key h
  exact hnone c hc ht

/-- Witness for C8: the plain pod, which has an empty condition list, is not
StuckNotReady. -/
theorem classify_noReady_never_stuckNotReady_witness :
    classify plainPod 0 ≠ Verdict.StuckNotReady :=
  (classify_noReady_never_stuckNotReady plainPod 0).1
    (by intro c hc; simp [plainPod] at hc)

/-! Concrete reconciler inputs for counterexamples and witnesses. -/

/-- Parent of end-to-end scenarios 1 and 2 of the spec. -/
def webParent : NginxDeployment :=
  { ns := "default"
    name := "web"
    spec := { replicas := 3, port := 8080, image := "app:v1" }
    status := { availableReplicas := 0, status := "" } }

/-- The workload child exactly matching the compiled desired definition for
`webParent`, observed with 3 available replicas. -/
def webDeployment : Deployment :=
  { desiredDeployment webParent with status := ⟨3⟩ }

/-- The network-endpoint child exactly matching the compiled desired
definition for `webParent`. -/
def webService : Service := desiredService webParent

/-! Claim theorems for the reconciler. -/

/-- C4: with the workload child present (and having a first container `c`),
`reconcileDeployment` decides purely on the two engine-owned fields — it
issues exactly one update, carrying the found child with its spec replaced
wholesale by the freshly compiled desired spec, exactly when the found
replica count differs from `Spec.Replicas` or the image of the first container
differs from `Spec.Image`; on exact match of those two fields it issues no
call. -/
theorem reconcileDeployment_owned_field_diff (nd : NginxDeployment)
    (f : Deployment) (c : Container) (h : f.spec.containers.head? = some c) :
    reconcileDeployment nd (GetResult.found f) =
      (if f.spec.replicas = nd.spec.replicas ∧ c.image = nd.spec.image then
        ([], none)
      else
        ([ReconcileCall.UpdateDeployment
            { f with spec := (desiredDeployment nd).spec }], none)) := by
  have himg : containersImage0 f.spec = some c.image := by
    simp [containersImage0, h]
  have hdes :
      containersImage0 (desiredDeployment nd).spec = some nd.spec.image := rfl
  simp only [reconcileDeployment]
  rw [himg, hdes]
  by_cases h1 : f.spec.replicas = nd.spec.replicas
  · by_cases h2 : c.image = nd.spec.image
    · simp [h1, h2, desiredDeployment]
    · simp [h1, h2, desiredDeployment]
  · simp [h1, desiredDeployment]

/-- Witness for C4: the matching child produces no call; a drifted image
produces exactly the full-spec update. -/
theorem reconcileDeployment_owned_field_diff_witness :
    reconcileDeployment webParent (GetResult.found webDeployment) =
      (if webDeployment.spec.replicas = webParent.spec.replicas ∧
          "app:v1" = webParent.spec.image then
        ([], none)
      else
        ([ReconcileCall.UpdateDeployment
            { webDeployment with spec := (desiredDeployment webParent).spec }],
          none)) :=
  reconcileDeployment_owned_field_diff webParent webDeployment
    { name := "nginx", image := "app:v1", containerPort := 8080,
      livenessProbe := some ⟨"/", 8080, 15, 5⟩,
      readinessProbe := some ⟨"/", 8080, 5, 5⟩ } rfl

/-- C7: the network-endpoint child is create-once and never updated — when
the service is found, `reconcileService` issues no call at all, whatever its
fields and whatever the parent spec; when it is absent, exactly one create
of the desired service is issued. -/
theorem reconcileService_create_once (nd : NginxDeployment) (s : Service) :
    reconcileService nd (GetResult.found s) = ([], none) ∧
    reconcileService nd GetResult.notFound =
      ([ReconcileCall.CreateService (desiredService nd)], none) :=
  ⟨rfl, rfl⟩

/-- C9: when the workload child is found, `updateStatus` issues exactly one
status update writing the observed available replicas and the derived status
string (`"Ready"` on equality with `Spec.Replicas`, else `"Available: X/Y"`)
onto the parent, leaving identity and spec unchanged; when the child is not
found, it returns the error and writes nothing. -/
theorem updateStatus_projects_observed_state (nd : NginxDeployment)
    (d : Deployment) :
    (∃ upd : NginxDeployment,
      updateStatus nd (GetResult.found d) =
        ([ReconcileCall.UpdateStatus upd], Except.ok upd) ∧
      upd.ns = nd.ns ∧ upd.name = nd.name ∧ upd.spec = nd.spec ∧
      upd.status.availableReplicas = d.status.availableReplicas ∧
      upd.status.status =
        (if d.status.availableReplicas = nd.spec.replicas then ("Ready")
         else (("Available: ") ++ toString d.status.availableReplicas ++ "/" ++
           toString nd.spec.replicas))) ∧
    (updateStatus nd GetResult.notFound).1 = [] ∧
    (∃ e, (updateStatus nd GetResult.notFound).2 = Except.error e) :=
  ⟨⟨_, rfl, rfl, rfl, rfl, rfl, rfl⟩, rfl, ⟨"deployment not found", rfl⟩⟩

/-- C2, counterexample: even with both children present and exactly matching
the compiled desired definitions, and the observed available replica count
equal to `Spec.Replicas`, `Reconcile` still performs a mutating call — the
unconditional status-subresource update issued by `updateStatus`. -/
theorem reconcile_converged_still_writes_cex :
    (Reconcile (GetResult.found webParent) (GetResult.found webDeployment)
        (GetResult.found webService) (GetResult.found webDeployment)).1 =
      [ReconcileCall.UpdateStatus
        { webParent with status := ⟨3, "Ready"⟩ }] ∧
    (Reconcile (GetResult.found webParent) (GetResult.found webDeployment)
        (GetResult.found webService) (GetResult.found webDeployment)).1 ≠
      [] := by
  constructor
  · rfl
  · decide

/-- C2, amended: for a parent whose two children exist and match the
compiled desired definitions (workload replica count and image equal the
defaulted Spec) and whose observed available replica count equals
`Spec.Replicas`, `Reconcile` performs zero mutating calls against the child
resources — no create and no update of the workload or the network
endpoint — but still issues exactly one parent status-subresource update,
which reports `"Ready"`. -/
theorem reconcile_converged_no_child_calls (nd : NginxDeployment)
    (d d2 : Deployment) (s : Service)
    (h1 : d.spec.replicas = (setDefaults nd).spec.replicas)
    (h2 : containersImage0 d.spec = some (setDefaults nd).spec.image)
    (h3 : d2.status.availableReplicas = (setDefaults nd).spec.replicas) :
    ∃ upd : NginxDeployment,
      Reconcile (GetResult.found nd) (GetResult.found d) (GetResult.found s)
          (GetResult.found d2) =
        ([ReconcileCall.UpdateStatus upd], none) ∧
      upd.status.status = "Ready" := by
  have hdep : reconcileDeployment (setDefaults nd) (GetResult.found d) =
      ([], none) := by
    simp only [reconcileDeployment]
    rw [h2]
    simp [h1, desiredDeployment, containersImage0]
  have hsvc : reconcileService (setDefaults nd) (GetResult.found s) =
      ([], none) := rfl
  have hstat : updateStatus (setDefaults nd) (GetResult.found d2) =
      ([ReconcileCall.UpdateStatus
          { setDefaults nd with
            status := ⟨d2.status.availableReplicas, "Ready"⟩ }],
        Except.ok
          { setDefaults nd with
            status := ⟨d2.status.availableReplicas, "Ready"⟩ }) := by
    unfold updateStatus
    simp [h3]
  refine ⟨{ setDefaults nd with
      status := ⟨d2.status.availableReplicas, "Ready"⟩ }, ?_, rfl⟩
  simp only [Reconcile, hdep, hsvc, hstat, List.nil_append, List.append_nil]

/-- Witness for the amended C2 theorem at the concrete converged scenario. -/
theorem reconcile_converged_no_child_calls_witness :
    ∃ upd : NginxDeployment,
      Reconcile (GetResult.found webParent) (GetResult.found webDeployment)
          (GetResult.found webService) (GetResult.found webDeployment) =
        ([ReconcileCall.UpdateStatus upd], none) ∧
      upd.status.status = "Ready" :=
  reconcile_converged_no_child_calls webParent webDeployment webDeployment
    webService rfl rfl rfl

end K8sOp
